import Mathlib

/-!
# Verification of `policoop_ems.py` (GNU Health emergency-transport module)

A shallow embedding of the module's data model and operations in Lean 4,
together with theorems settling the specification's claims.

Modelling conventions:
* Python `Decimal` / `float` field values are embedded as `ℚ` (the values the
  claims exercise — 0, 1, 5 — are exact in both representations).
* A nullable column / unset Python attribute is an `Option`.
* Python truthiness of an optional numeric value (`if self.latitude`) is
  `false` exactly when the value is absent or zero, as for `None`,
  `Decimal(0)` and `0.0`.
* Fallible operations return `Except String`; the framework's all-or-nothing
  transaction means an `Except.error` result persists nothing.
-/

namespace PolicoopEms

/-- Python truthiness of an optional numeric value: `None`, `Decimal(0)` and
`0.0` are falsy, every other value is truthy. -/
def pyTruthy : Option ℚ → Bool
  | none => false
  | some q => decide (q ≠ 0)

/-- Rendering of a `Decimal` value by Python `str`, restricted to the values
this development evaluates: an integral value prints as its integer part,
any other value by its exact fraction.  Only injectivity and the concrete
integral cases matter for the claims. -/
def pyDecimalStr (q : ℚ) : String :=
  if q.den = 1 then toString q.num else toString q.num ++ "/" ++ toString q.den

/-- `TransportRequest.on_change_with_urladdr` (policoop_ems.py:147-159):
returns the OpenStreetMap URL built from `latitude` and `longitude` when
`self.latitude and self.longitude` is truthy, and `''` otherwise. -/
def on_change_with_urladdr (latitude longitude : Option ℚ) : String :=
  if pyTruthy latitude && pyTruthy longitude then
    "http://openstreetmap.org/?mlat=" ++ pyDecimalStr (latitude.getD 0)
      ++ "&mlon=" ++ pyDecimalStr (longitude.getD 0)
  else ""

/-- The spec's claim C2, amended: the URL template is produced exactly when
both coordinates are set *and nonzero*; a missing or zero coordinate yields
the empty string.  Stated in the amended claim's own words, to be compared
with `on_change_with_urladdr`. -/
def urladdr_amended_spec (latitude longitude : Option ℚ) : String :=
  match latitude, longitude with
  | some la, some lo =>
      if la ≠ 0 ∧ lo ≠ 0 then
        "http://openstreetmap.org/?mlat=" ++ pyDecimalStr la
          ++ "&mlon=" ++ pyDecimalStr lo
      else ""
  | _, _ => ""

/-- A stored `TransportRequest` row, restricted to the columns the claims
exercise.  `state`'s selection admits `None`, `'open'` and `'closed'`
(policoop_ems.py:122-126), hence an optional string. -/
structure TRRecord where
  code : String
  state : Option String
  deriving Repr, DecidableEq

/-- `TransportRequest.open_support` (policoop_ems.py:191-195): writes
`state = 'open'` on every given record. -/
def open_support (srs : List TRRecord) : List TRRecord :=
  srs.map fun r => { r with state := some "open" }

/-- `TransportRequest.close_support` (policoop_ems.py:197-201): writes
`state = 'closed'` on every given record. -/
def close_support (srs : List TRRecord) : List TRRecord :=
  srs.map fun r => { r with state := some "closed" }

/-- A unit of measure from the product catalog (`product.uom`); `factor` is
its conversion factor to the category's reference unit, positive for every
real unit. -/
structure Uom where
  id : Nat
  factor : ℚ
  deriving Repr, DecidableEq

/-- `Uom.compute_qty` of the external product catalog.  Modelled from the
spec: the "unit-of-measure quantity conversion" service converts a quantity
between two units of the same category via their factors, so conversion of a
quantity into its own unit is the identity. -/
def Uom.compute_qty (from_uom : Uom) (qty : ℚ) (to_uom : Uom) : ℚ :=
  qty * from_uom.factor / to_uom.factor

/-- A product (`product.product`) restricted to what `InventoryLine` reads:
its identity and its default unit of measure. -/
structure Product where
  id : Nat
  default_uom : Uom
  deriving Repr, DecidableEq

/-- The stock-taking context an `InventoryLine` belongs to (`self.inventory`),
restricted to the attributes `get_move` reads. -/
structure Inventory where
  location : Nat
  lost_found : Nat
  company : Nat
  date : Nat
  deriving Repr, DecidableEq

/-- `InventoryLine` (policoop_ems.py:234-249) restricted to the columns
`get_move` and `cancel_move` read: the product, the recorded quantity and
the owning inventory context. -/
structure InventoryLine where
  id : Nat
  product : Product
  quantity : ℚ
  inventory : Inventory
  deriving Repr, DecidableEq

/-- `InventoryLine.get_uom` (policoop_ems.py:305-306): the function field
`uom` is the product's default unit of measure. -/
def InventoryLine.uom (l : InventoryLine) : Uom :=
  l.product.default_uom

/-- A `stock.move` record as constructed by `get_move` and stored by the
stock subsystem.  `origin` is the polymorphic back-reference to the
originating line, modelled by the line's id; `state` is the movement's
lifecycle state, `'draft'` on creation. -/
structure Move where
  id : Nat
  from_location : Nat
  to_location : Nat
  quantity : ℚ
  product : Nat
  uom : Uom
  company : Nat
  effective_date : Nat
  origin : Nat
  state : String := "draft"
  deriving Repr, DecidableEq

/-- `InventoryLine.get_move` (policoop_ems.py:328-356): computes
`delta_qty = compute_qty(uom, -quantity, uom)`; returns nothing when the
delta is zero; otherwise starts from `(inventory.location, lost_found)`,
swaps the locations and negates the delta when it is negative, and builds
the movement. -/
def InventoryLine.get_move (l : InventoryLine) : Option Move :=
  let delta_qty := Uom.compute_qty l.uom (-l.quantity) l.uom
  if delta_qty = 0 then none
  else
    let from_location := l.inventory.location
    let to_location := l.inventory.lost_found
    let p : Nat × Nat × ℚ :=
      if delta_qty < 0 then (to_location, from_location, -delta_qty)
      else (from_location, to_location, delta_qty)
    some
      { id := 0
        from_location := p.1
        to_location := p.2.1
        quantity := p.2.2
        product := l.product.id
        uom := l.uom
        company := l.inventory.company
        effective_date := l.inventory.date
        origin := l.id }

/-- `InventoryLine.moves`, the One2Many field (policoop_ems.py:249): the
stored movements whose polymorphic `origin` references the line. -/
def InventoryLine.moves (db : List Move) (l : InventoryLine) : List Move :=
  db.filter fun m => m.origin == l.id

/-- Modelled from the spec: `Move.cancel` of the external stock-movement
subsystem sets each given movement's state to cancelled. -/
def Move.cancel (db : List Move) (ms : List Move) : List Move :=
  db.map fun m =>
    if ms.any fun x => x.id == m.id then { m with state := "cancelled" }
    else m

/-- Modelled from the spec: `Move.delete` of the external stock-movement
subsystem removes each given movement record from the store, so subsequent
lookup of it returns none. -/
def Move.delete (db : List Move) (ms : List Move) : List Move :=
  db.filter fun m => !(ms.any fun x => x.id == m.id)

/-- `InventoryLine.cancel_move` (policoop_ems.py:321-326): collects
`[m for l in lines for m in l.moves if l.moves]`, cancels the collected
movements, then deletes them. -/
def InventoryLine.cancel_move (db : List Move)
    (lines : List InventoryLine) : List Move :=
  let moves := lines.flatMap fun l =>
    (InventoryLine.moves db l).filter fun _ =>
      !(InventoryLine.moves db l).isEmpty
  Move.delete (Move.cancel db moves) moves

/-- A concrete line with quantity 5 in a unit whose conversion to itself is
the identity: the input the claim about the quantity-5 movement names. -/
def exampleLine5 : InventoryLine :=
  { id := 42
    product := { id := 7, default_uom := { id := 1, factor := 1 } }
    quantity := 5
    inventory := { location := 10, lost_found := 20, company := 1, date := 0 } }

/-- The line of `exampleLine5` with quantity 0: its delta is zero. -/
def exampleLine0 : InventoryLine :=
  { id := 43
    product := { id := 7, default_uom := { id := 1, factor := 1 } }
    quantity := 0
    inventory := { location := 10, lost_found := 20, company := 1, date := 0 } }

/-- The movement `get_move` produces for `exampleLine5`: quantity 5, but
from the lost-and-found into the inventory location. -/
def exampleMove5 : Move :=
  { id := 0
    from_location := 20
    to_location := 10
    quantity := 5
    product := 7
    uom := { id := 1, factor := 1 }
    company := 1
    effective_date := 0
    origin := 42 }

/-- A stored movement previously generated for `exampleLine5` (its origin
references the line). -/
def exampleStoredMove : Move :=
  { id := 1
    from_location := 10
    to_location := 20
    quantity := 1
    product := 7
    uom := { id := 1, factor := 1 }
    company := 1
    effective_date := 0
    origin := 42 }

/-- The values dictionary passed to `TransportRequest.create`, restricted to
the columns the claims exercise; `none` models an absent key. -/
structure CreateValues where
  code : Option String := none
  state : Option String := none
  deriving Repr, DecidableEq

/-- The singleton configuration row `policoop.sequences`
(policoop_ems.py:41-48); its required sequence reference may nevertheless be
unset in the store. -/
structure PolicoopSequences where
  transport_request_code_sequence : Option Nat
  deriving Repr, DecidableEq

/-- The persistent state `TransportRequest.create` runs against: the
configuration singleton (`none` when the row is missing), the configured
sequence's counter, and the stored requests. -/
structure TRDb where
  config : Option PolicoopSequences
  seqCounter : Nat
  requests : List TRRecord
  deriving Repr, DecidableEq

/-- Modelled from the spec: `Sequence.get_id` of the shared numbering
service (`ir.sequence`, outside this repository) mints the next value of the
sequence — a non-empty human-readable code — and advances the counter. -/
def Sequence.get_id (counter : Nat) : String × Nat :=
  ("SR" ++ toString (counter + 1), counter + 1)

/-- `TransportRequest.default_state` (policoop_ems.py:142-144). -/
def default_state : String := "open"

/-- The code-filling loop of `TransportRequest.create`
(policoop_ems.py:166-171): each values dictionary whose `code` is falsy
(absent or the empty string) gets the next value of the configured sequence.
Modelled from the spec for the failure mode: a missing configuration row or
an unset sequence reference surfaces a configuration error. -/
def fill_codes (config : Option PolicoopSequences) :
    Nat → List CreateValues → Except String (List CreateValues × Nat)
  | counter, [] => Except.ok ([], counter)
  | counter, v :: rest =>
      if v.code = none ∨ v.code = some "" then
        match config with
        | none => Except.error "missing policoop.sequences configuration row"
        | some c =>
          match c.transport_request_code_sequence with
          | none => Except.error "transport request sequence reference not set"
          | some _ =>
            match fill_codes config (Sequence.get_id counter).2 rest with
            | Except.error e => Except.error e
            | Except.ok (vs, n) =>
                Except.ok
                  ({ v with code := some (Sequence.get_id counter).1 } :: vs, n)
      else
        match fill_codes config counter rest with
        | Except.error e => Except.error e
        | Except.ok (vs, n) => Except.ok (v :: vs, n)

/-- The stored row built from one values dictionary by the framework's
create: an absent `code` stores as the empty string, and an absent `state`
receives the declared default `default_state` (policoop_ems.py:142-144). -/
def recordOf (v : CreateValues) : TRRecord :=
  { code := v.code.getD ""
    state := if v.state = none then some default_state else v.state }

/-- Modelled from the spec for the framework part: `super().create` stores
one row per values dictionary, applying declared defaults, and the store
enforces the `code_uniq` SQL constraint `Unique(t, t.code)`
(policoop_ems.py:180-183) at the transaction boundary — the whole operation
fails, persisting nothing, when a new code collides with a stored one or
with another new one. -/
def super_create (db : TRDb) (vs : List CreateValues) (counter : Nat) :
    Except String TRDb :=
  let recs := vs.map recordOf
  if (recs.map TRRecord.code).Nodup ∧
      ∀ c ∈ recs.map TRRecord.code, c ∉ db.requests.map TRRecord.code then
    Except.ok { db with requests := db.requests ++ recs, seqCounter := counter }
  else Except.error "This Request Code already exists"

/-- `TransportRequest.create` (policoop_ems.py:161-173): copies the values
dictionaries, fills each falsy code from the configured sequence, then
delegates to the framework's create. -/
def TransportRequest.create (db : TRDb) (vlist : List CreateValues) :
    Except String TRDb :=
  match fill_codes db.config db.seqCounter vlist with
  | Except.error e => Except.error e
  | Except.ok (vs, counter) => super_create db vs counter

/-- Whether a create outcome is a surfaced error — the all-or-nothing
transaction then persists no record. -/
def createFailed : Except String TRDb → Bool
  | Except.error _ => true
  | Except.ok _ => false

/-- A database with the configuration row present and its sequence set. -/
def exampleDb : TRDb :=
  { config := some { transport_request_code_sequence := some 1 }
    seqCounter := 0
    requests := [] }

/-- The state of `exampleDb` after creating one request with empty values:
the minted code is `SR1` and the state defaults to open. -/
def exampleDbAfter : TRDb :=
  { config := some { transport_request_code_sequence := some 1 }
    seqCounter := 1
    requests := [{ code := "SR1", state := some "open" }] }

/-- A database whose configuration row is missing. -/
def exampleDbNoConfig : TRDb :=
  { config := none, seqCounter := 0, requests := [] }

/-- A row of the lines table as the 3.0 migration reads it
(policoop_ems.py:278-280): its id and the legacy single-valued `move`
column. -/
structure LegacyLineRow where
  id : Nat
  move : Option Nat
  deriving Repr, DecidableEq

/-- A stored `stock.move` row as the migration updates it: its id and its
textual polymorphic `origin` column. -/
structure MoveRow where
  id : Nat
  origin : Option String
  deriving Repr, DecidableEq

/-- `cls.__name__` of `InventoryLine` (policoop_ems.py:236). -/
def inventoryLineModelName : String := "policoop.transport.line"

/-- One iteration of the migration loop applied to one stored move row
(policoop_ems.py:280-284): when the line references this row, its origin
becomes the composite reference `'<model-name>,<line-id>'`. -/
def originStep (l : LegacyLineRow) (m : MoveRow) : MoveRow :=
  match l.move with
  | none => m
  | some mid =>
      if m.id = mid then
        { m with
          origin := some (inventoryLineModelName ++ "," ++ toString l.id) }
      else m

/-- One iteration of the migration loop over the whole move table: the
`UPDATE` issued for one line with a non-null `move` reference. -/
def migrateStep (ms : List MoveRow) (l : LegacyLineRow) : List MoveRow :=
  ms.map (originStep l)

/-- The migration loop (policoop_ems.py:280-284): one update per line row
whose legacy `move` reference is non-null, in table order. -/
def migrateOrigins (lines : List LegacyLineRow) (ms : List MoveRow) :
    List MoveRow :=
  lines.foldl migrateStep ms

/-- The cumulative effect of the migration loop on a single stored move
row. -/
def migrateRow (lines : List LegacyLineRow) (m : MoveRow) : MoveRow :=
  lines.foldl (fun m l => originStep l m) m

/-- The 3.0-migration branch of `InventoryLine.__register__`
(policoop_ems.py:276-285): when the legacy `move` column still exists,
rewrite the origin of every referenced move row, then drop the column.
Returns the move table and whether the `move` column still exists. -/
def register_migration (moveColumnExists : Bool)
    (lines : List LegacyLineRow) (ms : List MoveRow) : List MoveRow × Bool :=
  if moveColumnExists then (migrateOrigins lines ms, false)
  else (ms, moveColumnExists)

/-- A legacy line row referencing move 3 through the old `move` column. -/
def exampleLegacyLine : LegacyLineRow := { id := 5, move := some 3 }

/-- The stored move row the legacy line references, before migration. -/
def exampleMoveRow : MoveRow := { id := 3, origin := none }

/-- The same move row after migration: origin rewritten to the composite
reference to line 5. -/
def exampleMigratedRow : MoveRow :=
  { id := 3, origin := some "policoop.transport.line,5" }

/-- A legacy line row referencing move 3 — sharing the reference with
`exampleSharedLine2`. -/
def exampleSharedLine1 : LegacyLineRow := { id := 1, move := some 3 }

/-- A second legacy line row referencing the same move 3. -/
def exampleSharedLine2 : LegacyLineRow := { id := 2, move := some 3 }

end PolicoopEms

namespace PolicoopEms

/-- C2: the claim as stated fails on the code.  With `latitude = 0` and
`longitude = 1` both coordinates are set, yet the code produces `''` (Python
truthiness treats the zero `Decimal` as unset), not the template URL. -/
theorem urladdr_zero_latitude_counterexample :
    on_change_with_urladdr (some 0) (some 1) = "" ∧
    "http://openstreetmap.org/?mlat=0&mlon=1" ≠ "" := by
  constructor
  · rfl
  · decide

/-- C2 (amended): for every pair of optional coordinates, the derived URL is
the template exactly when both coordinates are set and nonzero (truthy), and
the empty string when either is unset or zero. -/
theorem urladdr_eq_amended_spec (latitude longitude : Option ℚ) :
    on_change_with_urladdr latitude longitude =
      urladdr_amended_spec latitude longitude := by
  cases latitude with
  | none => rfl
  | some la =>
    cases longitude with
    | none => simp [on_change_with_urladdr, urladdr_amended_spec, pyTruthy]
    | some lo =>
      by_cases hla : la = 0 <;> by_cases hlo : lo = 0 <;>
        simp [on_change_with_urladdr, urladdr_amended_spec, pyTruthy,
          hla, hlo, Option.getD]

/-- C7: `open_support` on a request already in state `'open'` leaves the
stored record unchanged, and `close_support` on a request already `'closed'`
leaves it unchanged: both actions are idempotent on the state value. -/
theorem open_close_support_idempotent (r r' : TRRecord)
    (ho : r.state = some "open") (hc : r'.state = some "closed") :
    open_support [r] = [r] ∧ close_support [r'] = [r'] := by
  constructor
  · cases r with
    | mk code state => simp [open_support, ho.symm]
  · cases r' with
    | mk code state => simp [close_support, hc.symm]

/-- Witness for C7 at concrete records in states `'open'` and `'closed'`. -/
theorem open_close_support_idempotent_witness :
    open_support [⟨"SR1", some "open"⟩] = [⟨"SR1", some "open"⟩] ∧
    close_support [⟨"SR2", some "closed"⟩] = [⟨"SR2", some "closed"⟩] :=
  open_close_support_idempotent ⟨"SR1", some "open"⟩ ⟨"SR2", some "closed"⟩
    rfl rfl

/-- C4: an `InventoryLine` whose computed quantity delta is exactly zero
produces no stock movement: `get_move` returns nothing. -/
theorem get_move_zero_delta_none (l : InventoryLine)
    (h : Uom.compute_qty l.uom (-l.quantity) l.uom = 0) :
    l.get_move = none := by
  simp [InventoryLine.get_move, h]

/-- Witness for C4: the line with quantity 0 has delta zero and generates no
movement. -/
theorem get_move_zero_delta_none_witness :
    Uom.compute_qty exampleLine0.uom (-exampleLine0.quantity) exampleLine0.uom
        = 0 ∧
    exampleLine0.get_move = none :=
  ⟨by norm_num [Uom.compute_qty, exampleLine0, InventoryLine.uom],
    get_move_zero_delta_none exampleLine0
      (by norm_num [Uom.compute_qty, exampleLine0, InventoryLine.uom])⟩

/-- C5: every movement returned by `get_move` carries a non-negative
quantity, and when the computed delta is negative the source and destination
locations are swapped (source becomes the lost-and-found, destination the
inventory location) and the quantity is the delta's positive magnitude. -/
theorem get_move_nonneg_and_swap (l : InventoryLine) (m : Move)
    (hm : l.get_move = some m) :
    0 ≤ m.quantity ∧
      (Uom.compute_qty l.uom (-l.quantity) l.uom < 0 →
        m.from_location = l.inventory.lost_found ∧
        m.to_location = l.inventory.location ∧
        m.quantity = -(Uom.compute_qty l.uom (-l.quantity) l.uom)) := by
  simp only [InventoryLine.get_move] at hm
  by_cases h0 : Uom.compute_qty l.uom (-l.quantity) l.uom = 0
  · simp [h0] at hm
  · rw [if_neg h0] at hm
    by_cases hneg : Uom.compute_qty l.uom (-l.quantity) l.uom < 0
    · rw [if_pos hneg] at hm
      obtain rfl := (Option.some_inj.mp hm).symm
      refine ⟨by simpa using le_of_lt (neg_pos.mpr hneg), fun _ => ?_⟩
      exact ⟨rfl, rfl, rfl⟩
    · rw [if_neg hneg] at hm
      obtain rfl := (Option.some_inj.mp hm).symm
      exact ⟨le_of_lt (lt_of_le_of_ne (not_lt.mp hneg) (Ne.symm h0)),
        fun h => absurd h hneg⟩

/-- Evaluation of `get_move` at `exampleLine5`: the delta −5 is negative, so
the locations are swapped and the magnitude negated. -/
theorem exampleLine5_get_move : exampleLine5.get_move = some exampleMove5 := by
  norm_num [InventoryLine.get_move, exampleLine5, exampleMove5,
    InventoryLine.uom, Uom.compute_qty]

/-- Witness for C5 at `exampleLine5`: its delta is −5, so the returned
movement has quantity 5 with the locations swapped. -/
theorem get_move_nonneg_and_swap_witness :
    exampleLine5.get_move = some exampleMove5 ∧
    (0 ≤ exampleMove5.quantity ∧
      (Uom.compute_qty exampleLine5.uom (-exampleLine5.quantity)
          exampleLine5.uom < 0 →
        exampleMove5.from_location = exampleLine5.inventory.lost_found ∧
        exampleMove5.to_location = exampleLine5.inventory.location ∧
        exampleMove5.quantity = -(Uom.compute_qty exampleLine5.uom
          (-exampleLine5.quantity) exampleLine5.uom))) :=
  ⟨exampleLine5_get_move,
    get_move_nonneg_and_swap exampleLine5 exampleMove5 exampleLine5_get_move⟩

/-- C3: the claim as stated fails on the code.  For the concrete line with
quantity 5 and a unit equal to itself, the computed delta is −5, so the
movement's source is the lost-and-found location and its destination the
inventory location — the swapped orientation, not the non-swapped one the
claim asserts (the two locations differ, so the orientations differ). -/
theorem get_move_quantity5_counterexample :
    (exampleLine5.get_move).map Move.quantity = some 5 ∧
    (exampleLine5.get_move).map Move.from_location =
      some exampleLine5.inventory.lost_found ∧
    (exampleLine5.get_move).map Move.to_location =
      some exampleLine5.inventory.location ∧
    exampleLine5.inventory.lost_found ≠ exampleLine5.inventory.location := by
  rw [exampleLine5_get_move]
  exact ⟨rfl, rfl, rfl, by decide⟩

/-- C3 (amended): for an `InventoryLine` with quantity 5 whose unit of
measure equals itself (any unit with a nonzero factor), `get_move` returns a
movement with quantity 5 (non-negative), whose source is the lost-and-found
location and whose destination is the inventory location — the swapped
orientation, since the computed delta −5 is negative. -/
theorem get_move_quantity5_swapped (l : InventoryLine)
    (h5 : l.quantity = 5) (hf : l.uom.factor ≠ 0) :
    (l.get_move).map Move.quantity = some 5 ∧
    (l.get_move).map Move.from_location = some l.inventory.lost_found ∧
    (l.get_move).map Move.to_location = some l.inventory.location := by
  have hd : Uom.compute_qty l.uom (-l.quantity) l.uom = -5 := by
    rw [Uom.compute_qty, h5, mul_div_assoc, div_self hf, mul_one]
  have h0 : ¬ Uom.compute_qty l.uom (-l.quantity) l.uom = 0 := by
    rw [hd]; norm_num
  have hneg : Uom.compute_qty l.uom (-l.quantity) l.uom < 0 := by
    rw [hd]; norm_num
  simp only [InventoryLine.get_move, if_neg h0, if_pos hneg, Option.map_some]
  refine ⟨?_, rfl, rfl⟩
  rw [hd]; norm_num

/-- Witness for the amended C3 at `exampleLine5`. -/
theorem get_move_quantity5_swapped_witness :
    exampleLine5.quantity = 5 ∧ exampleLine5.uom.factor ≠ 0 ∧
    ((exampleLine5.get_move).map Move.quantity = some 5 ∧
      (exampleLine5.get_move).map Move.from_location =
        some exampleLine5.inventory.lost_found ∧
      (exampleLine5.get_move).map Move.to_location =
        some exampleLine5.inventory.location) :=
  ⟨rfl, by norm_num [exampleLine5, InventoryLine.uom],
    get_move_quantity5_swapped exampleLine5 rfl
      (by norm_num [exampleLine5, InventoryLine.uom])⟩

/-- C6: after `cancel_move` on a set of lines, no movement previously
generated for any of those lines remains: looking up a given line's
movements in the resulting store returns none. -/
theorem cancel_move_removes_line_moves (db : List Move)
    (lines : List InventoryLine) (l : InventoryLine) (hl : l ∈ lines) :
    InventoryLine.moves (InventoryLine.cancel_move db lines) l = [] := by
  rw [InventoryLine.moves, List.filter_eq_nil_iff]
  intro m hm
  simp only [beq_iff_eq]
  intro horigin
  unfold InventoryLine.cancel_move at hm
  set ms := lines.flatMap (fun l' =>
    (InventoryLine.moves db l').filter fun _ =>
      !(InventoryLine.moves db l').isEmpty) with hms
  rw [Move.delete, List.mem_filter] at hm
  obtain ⟨hmem, hnotany⟩ := hm
  rw [Move.cancel, List.mem_map] at hmem
  obtain ⟨m0, hm0db, hm0eq⟩ := hmem
  have hid : m.id = m0.id := by
    split at hm0eq <;> simp [← hm0eq]
  have horig0 : m0.origin = l.id := by
    have : m.origin = m0.origin := by
      split at hm0eq <;> simp [← hm0eq]
    rw [← this]; exact horigin
  have hm0l : m0 ∈ InventoryLine.moves db l := by
    rw [InventoryLine.moves, List.mem_filter]
    exact ⟨hm0db, by simp [horig0]⟩
  have hne : (InventoryLine.moves db l).isEmpty = false := by
    cases h : InventoryLine.moves db l with
    | nil => rw [h] at hm0l; exact absurd hm0l (List.not_mem_nil m0)
    | cons a t => rfl
  have hm0ms : m0 ∈ ms := by
    rw [hms, List.mem_flatMap]
    refine ⟨l, hl, ?_⟩
    rw [List.mem_filter]
    exact ⟨hm0l, by simp [hne]⟩
  have hany : (ms.any fun x => x.id == m.id) = true := by
    rw [List.any_eq_true]
    exact ⟨m0, hm0ms, by simp [hid]⟩
  rw [hany] at hnotany
  exact absurd hnotany (by decide)

/-- Witness for C6: cancelling the singleton line set removes the stored
movement linked to it. -/
theorem cancel_move_removes_line_moves_witness :
    exampleLine5 ∈ [exampleLine5] ∧
    InventoryLine.moves
      (InventoryLine.cancel_move [exampleStoredMove] [exampleLine5])
      exampleLine5 = [] :=
  ⟨List.mem_singleton_self _,
    cancel_move_removes_line_moves [exampleStoredMove] [exampleLine5]
      exampleLine5 (List.mem_singleton_self _)⟩

/-- A code minted by the modelled sequence service is never empty. -/
theorem code_SR_ne_empty (s : String) : "SR" ++ s ≠ "" := by
  intro h
  have h2 : "SR".data ++ s.data = [] := by
    have h3 := congrArg String.data h
    rwa [String.data_append] at h3
  have h4 := List.append_eq_nil.mp h2
  exact absurd h4.1 (by decide)

/-- Every values dictionary coming out of a successful `fill_codes` run
carries a non-empty explicit code and the state of one of the input
dictionaries. -/
theorem fill_codes_ok_forall (config : Option PolicoopSequences) :
    ∀ (vlist : List CreateValues) (counter : Nat)
      (vs : List CreateValues) (n : Nat),
      fill_codes config counter vlist = Except.ok (vs, n) →
      ∀ v' ∈ vs,
        (∃ s, v'.code = some s ∧ s ≠ "") ∧ ∃ v ∈ vlist, v'.state = v.state := by
  intro vlist
  induction vlist with
  | nil =>
    intro counter vs n h v' hv'
    simp only [fill_codes, Except.ok.injEq, Prod.mk.injEq] at h
    rw [← h.1] at hv'
    exact absurd hv' (List.not_mem_nil v')
  | cons v rest ih =>
    intro counter vs n h v' hv'
    simp only [fill_codes] at h
    by_cases hcode : v.code = none ∨ v.code = some ""
    · rw [if_pos hcode] at h
      split at h
      · cases h
      · split at h
        · cases h
        · split at h
          · cases h
          · rename_i vs' n' hrec
            simp only [Except.ok.injEq, Prod.mk.injEq] at h
            rw [← h.1] at hv'
            rcases List.mem_cons.mp hv' with rfl | hmem
            · exact ⟨⟨(Sequence.get_id counter).1, rfl, code_SR_ne_empty _⟩,
                v, List.mem_cons_self v rest, rfl⟩
            · obtain ⟨h1, v₀, hv₀, hst⟩ :=
                ih (Sequence.get_id counter).2 vs' n' hrec v' hmem
              exact ⟨h1, v₀, List.mem_cons_of_mem v hv₀, hst⟩
    · rw [if_neg hcode] at h
      rcases hrec : fill_codes config counter rest with e | ⟨vs', n'⟩
      · rw [hrec] at h; cases h
      · rw [hrec] at h
        simp only [Except.ok.injEq, Prod.mk.injEq] at h
        rw [← h.1] at hv'
        rcases List.mem_cons.mp hv' with rfl | hmem
        · push_neg at hcode
          rcases hc : v'.code with _ | s
          · exact absurd hc hcode.1
          · refine ⟨⟨s, rfl, fun hs => ?_⟩,
              v', List.mem_cons_self v' rest, rfl⟩
            rw [hs] at hc
            exact absurd hc hcode.2
        · obtain ⟨h1, v₀, hv₀, hst⟩ := ih counter vs' n' hrec v' hmem
          exact ⟨h1, v₀, List.mem_cons_of_mem v hv₀, hst⟩

/-- A successful `fill_codes` run preserves the states of the values
dictionaries pointwise. -/
theorem fill_codes_states (config : Option PolicoopSequences) :
    ∀ (vlist : List CreateValues) (counter : Nat)
      (vs : List CreateValues) (n : Nat),
      fill_codes config counter vlist = Except.ok (vs, n) →
      vs.map CreateValues.state = vlist.map CreateValues.state := by
  intro vlist
  induction vlist with
  | nil =>
    intro counter vs n h
    simp only [fill_codes, Except.ok.injEq, Prod.mk.injEq] at h
    rw [← h.1]
  | cons v rest ih =>
    intro counter vs n h
    simp only [fill_codes] at h
    by_cases hcode : v.code = none ∨ v.code = some ""
    · rw [if_pos hcode] at h
      split at h
      · cases h
      · split at h
        · cases h
        · split at h
          · cases h
          · rename_i vs' n' hrec
            simp only [Except.ok.injEq, Prod.mk.injEq] at h
            rw [← h.1, List.map_cons, List.map_cons,
              ih (Sequence.get_id counter).2 vs' n' hrec]
    · rw [if_neg hcode] at h
      rcases hrec : fill_codes config counter rest with e | ⟨vs', n'⟩
      · rw [hrec] at h; cases h
      · rw [hrec] at h
        simp only [Except.ok.injEq, Prod.mk.injEq] at h
        rw [← h.1, List.map_cons, List.map_cons, ih counter vs' n' hrec]

/-- A successful framework create appends exactly the built rows, whose
codes are pairwise distinct and disjoint from the stored ones. -/
theorem super_create_ok (db : TRDb) (vs : List CreateValues) (n : Nat)
    (db' : TRDb) (hok : super_create db vs n = Except.ok db') :
    db'.requests = db.requests ++ vs.map recordOf ∧
    ((vs.map recordOf).map TRRecord.code).Nodup ∧
    ∀ c ∈ (vs.map recordOf).map TRRecord.code,
      c ∉ db.requests.map TRRecord.code := by
  simp only [super_create] at hok
  split at hok
  · rename_i hcond
    injection hok with h
    rw [← h]
    exact ⟨rfl, hcond.1, hcond.2⟩
  · cases hok

/-- C1: a request created with no explicit code (absent or empty in its
values) stores a non-empty code that occurs exactly once among all stored
requests afterwards.  The non-emptiness comes from the modelled sequence
service, the uniqueness from the `code_uniq` constraint enforced by the
store. -/
theorem create_code_nonempty_unique (db : TRDb) (vlist : List CreateValues)
    (db' : TRDb)
    (hok : TransportRequest.create db vlist = Except.ok db') :
    ∀ r ∈ db'.requests, r ∉ db.requests →
      r.code ≠ "" ∧ (db'.requests.map TRRecord.code).count r.code = 1 := by
  unfold TransportRequest.create at hok
  rcases hfc : fill_codes db.config db.seqCounter vlist with e | ⟨vs, n⟩
  · rw [hfc] at hok; cases hok
  · rw [hfc] at hok
    obtain ⟨hreq, hnd, hdisj⟩ := super_create_ok db vs n db' hok
    intro r hr hrnot
    rw [hreq] at hr
    rcases List.mem_append.mp hr with h | h
    · exact absurd h hrnot
    · obtain ⟨v', hv', rfl⟩ := List.mem_map.mp h
      obtain ⟨⟨s, hs, hsne⟩, -⟩ :=
        fill_codes_ok_forall db.config vlist db.seqCounter vs n hfc v' hv'
      have hcodein : (recordOf v').code ∈ (vs.map recordOf).map TRRecord.code :=
        List.mem_map_of_mem TRRecord.code (List.mem_map_of_mem recordOf hv')
      constructor
      · simp [recordOf, hs, hsne]
      · rw [hreq, List.map_append, List.count_append]
        rw [List.count_eq_zero.mpr (hdisj _ hcodein)]
        rw [List.count_eq_one_of_mem hnd hcodein]

/-- C10: the stored states after a successful create are the stored states
before it, followed by one entry per values dictionary — `'open'` (the
declared default) where the dictionary carried no state value, the explicit
value otherwise. -/
theorem create_default_state_open (db : TRDb) (vlist : List CreateValues)
    (db' : TRDb)
    (hok : TransportRequest.create db vlist = Except.ok db') :
    db'.requests.map TRRecord.state =
      db.requests.map TRRecord.state ++
        vlist.map (fun v => if v.state = none then some "open" else v.state) := by
  unfold TransportRequest.create at hok
  rcases hfc : fill_codes db.config db.seqCounter vlist with e | ⟨vs, n⟩
  · rw [hfc] at hok; cases hok
  · rw [hfc] at hok
    obtain ⟨hreq, -, -⟩ := super_create_ok db vs n db' hok
    rw [hreq, List.map_append]
    congr 1
    have hstates := fill_codes_states db.config vlist db.seqCounter vs n hfc
    calc (vs.map recordOf).map TRRecord.state
        = (vs.map CreateValues.state).map
            (fun st => if st = none then some "open" else st) := by
          simp only [List.map_map]
          rfl
      _ = (vlist.map CreateValues.state).map
            (fun st => if st = none then some "open" else st) := by
          rw [hstates]
      _ = vlist.map (fun v => if v.state = none then some "open" else v.state) := by
          simp only [List.map_map]
          rfl

/-- C8: creating a request with no explicit code while the configuration
row is missing, or present with its sequence reference unset, surfaces an
error — the transaction persists nothing. -/
theorem create_missing_config_fails (db : TRDb) (v : CreateValues)
    (hcode : v.code = none ∨ v.code = some "")
    (hcfg : db.config = none ∨
      db.config = some { transport_request_code_sequence := none }) :
    createFailed (TransportRequest.create db [v]) = true := by
  unfold TransportRequest.create
  rcases hcfg with hcfg | hcfg <;>
    rw [hcfg] <;>
    simp only [fill_codes, if_pos hcode] <;>
    rfl

/-- Witness for C8: with the configuration row absent, creating from empty
values fails. -/
theorem create_missing_config_fails_witness :
    ((⟨none, none⟩ : CreateValues).code = none ∨
      (⟨none, none⟩ : CreateValues).code = some "") ∧
    (exampleDbNoConfig.config = none ∨
      exampleDbNoConfig.config =
        some { transport_request_code_sequence := none }) ∧
    createFailed (TransportRequest.create exampleDbNoConfig [⟨none, none⟩])
      = true :=
  ⟨Or.inl rfl, Or.inl rfl,
    create_missing_config_fails exampleDbNoConfig ⟨none, none⟩
      (Or.inl rfl) (Or.inl rfl)⟩

/-- Witness for C1: creating from empty values against `exampleDb` mints the
code `SR1`, which is non-empty and occurs exactly once afterwards. -/
theorem create_code_nonempty_unique_witness :
    TransportRequest.create exampleDb [⟨none, none⟩]
      = Except.ok exampleDbAfter ∧
    (⟨"SR1", some "open"⟩ : TRRecord).code ≠ "" ∧
    (exampleDbAfter.requests.map TRRecord.code).count
      (⟨"SR1", some "open"⟩ : TRRecord).code = 1 := by
  have hok : TransportRequest.create exampleDb [⟨none, none⟩]
      = Except.ok exampleDbAfter := by rfl
  refine ⟨hok, ?_, ?_⟩
  · exact (create_code_nonempty_unique exampleDb [⟨none, none⟩] exampleDbAfter
      hok ⟨"SR1", some "open"⟩ (by simp [exampleDbAfter])
      (by simp [exampleDb])).1
  · exact (create_code_nonempty_unique exampleDb [⟨none, none⟩] exampleDbAfter
      hok ⟨"SR1", some "open"⟩ (by simp [exampleDbAfter])
      (by simp [exampleDb])).2

/-- Witness for C10: the request created from empty values against
`exampleDb` is stored in state open. -/
theorem create_default_state_open_witness :
    TransportRequest.create exampleDb [⟨none, none⟩]
      = Except.ok exampleDbAfter ∧
    exampleDbAfter.requests.map TRRecord.state =
      exampleDb.requests.map TRRecord.state ++
        ([⟨none, none⟩] : List CreateValues).map
          (fun v => if v.state = none then some "open" else v.state) := by
  have hok : TransportRequest.create exampleDb [⟨none, none⟩]
      = Except.ok exampleDbAfter := by rfl
  exact ⟨hok,
    create_default_state_open exampleDb [⟨none, none⟩] exampleDbAfter hok⟩

/-- `originStep` never changes a move row's id. -/
theorem originStep_id (l : LegacyLineRow) (m : MoveRow) :
    (originStep l m).id = m.id := by
  unfold originStep
  split
  · rfl
  · split <;> rfl

/-- The migration loop, viewed per stored move row: folding the updates over
the table equals mapping the per-row cumulative update. -/
theorem migrateOrigins_eq_map :
    ∀ (lines : List LegacyLineRow) (ms : List MoveRow),
      migrateOrigins lines ms = ms.map (migrateRow lines) := by
  intro lines
  induction lines with
  | nil =>
    intro ms
    have h1 : ms.map (migrateRow []) = ms.map id :=
      List.map_congr_left fun m _ => rfl
    rw [h1, List.map_id]
    rfl
  | cons l ls ih =>
    intro ms
    have h1 : migrateOrigins (l :: ls) ms
        = migrateOrigins ls (migrateStep ms l) := rfl
    rw [h1, ih, migrateStep, List.map_map]
    exact List.map_congr_left fun m _ => rfl

/-- The cumulative migration update never changes a move row's id. -/
theorem migrateRow_id : ∀ (lines : List LegacyLineRow) (m : MoveRow),
    (migrateRow lines m).id = m.id := by
  intro lines
  induction lines with
  | nil => intro m; rfl
  | cons l ls ih =>
    intro m
    have h1 : migrateRow (l :: ls) m = migrateRow ls (originStep l m) := rfl
    rw [h1, ih, originStep_id]

/-- A move row not referenced by any remaining line is untouched by the
migration loop. -/
theorem migrateRow_not_ref : ∀ (lines : List LegacyLineRow) (m : MoveRow),
    m.id ∉ lines.filterMap LegacyLineRow.move →
    migrateRow lines m = m := by
  intro lines
  induction lines with
  | nil => intro m _; rfl
  | cons l ls ih =>
    intro m hnot
    have h1 : migrateRow (l :: ls) m = migrateRow ls (originStep l m) := rfl
    have hstep : originStep l m = m := by
      unfold originStep
      split
      · rfl
      · rename_i mid hmid
        have hne : m.id ≠ mid := by
          intro hid
          exact hnot (by simp [List.filterMap_cons, hmid, hid])
        rw [if_neg hne]
    rw [h1, hstep]
    refine ih m fun hmem => hnot ?_
    cases hlm : l.move with
    | none => simpa [List.filterMap_cons, hlm] using hmem
    | some mid =>
      simp only [List.filterMap_cons, hlm, List.mem_cons]
      exact Or.inr hmem

/-- C9: the claim as stated fails on the code.  With two line rows (ids 1
and 2) sharing the legacy reference to move 3, the loop issues one UPDATE
per row in table order, so the later line's UPDATE overwrites the earlier
one's: the migrated table holds the single row with origin
`'policoop.transport.line,2'`, not the composite reference back to line 1 —
refuting the per-line rewrite for line 1, whose move reference is
non-null. -/
theorem register_shared_move_counterexample :
    exampleSharedLine1 ∈ [exampleSharedLine1, exampleSharedLine2] ∧
    exampleSharedLine1.move = some 3 ∧
    (register_migration true [exampleSharedLine1, exampleSharedLine2]
        [exampleMoveRow]).1
      = [{ id := 3, origin := some "policoop.transport.line,2" }] ∧
    some "policoop.transport.line,2" ≠
      some (inventoryLineModelName ++ "," ++ toString exampleSharedLine1.id) := by
  refine ⟨List.mem_cons_self _ _, rfl, rfl, ?_⟩
  decide

/-- C9 (amended): when the legacy `move` column exists and the legacy move
references are pairwise distinct (no two lines share one movement — with a
shared reference only the last line's UPDATE survives), the migration
rewrites the origin of the move row referenced by each line to the
composite reference `'policoop.transport.line,<line-id>'`, and afterwards
the legacy column is dropped. -/
theorem register_rewrites_origins (lines : List LegacyLineRow)
    (ms : List MoveRow)
    (hnd : (lines.filterMap LegacyLineRow.move).Nodup)
    (l : LegacyLineRow) (hl : l ∈ lines) (mid : Nat) (hmv : l.move = some mid)
    (m : MoveRow) (hm : m ∈ (register_migration true lines ms).1)
    (hid : m.id = mid) :
    m.origin = some (inventoryLineModelName ++ "," ++ toString l.id) ∧
    (register_migration true lines ms).2 = false := by
  refine ⟨?_, rfl⟩
  have hres : (register_migration true lines ms).1
      = migrateOrigins lines ms := rfl
  rw [hres, migrateOrigins_eq_map] at hm
  obtain ⟨m0, hm0, rfl⟩ := List.mem_map.mp hm
  obtain ⟨s, t, rfl⟩ := List.append_of_mem hl
  have hm0id : m0.id = mid := by
    rw [← migrateRow_id (s ++ l :: t) m0]
    exact hid
  have hsplit : migrateRow (s ++ l :: t) m0
      = migrateRow t (originStep l (migrateRow s m0)) := by
    rw [migrateRow, List.foldl_append]
    rfl
  have hstepped : originStep l (migrateRow s m0)
      = { migrateRow s m0 with
          origin := some (inventoryLineModelName ++ "," ++ toString l.id) } := by
    simp only [originStep, hmv]
    rw [if_pos (by rw [migrateRow_id]; exact hm0id)]
  have hmidt : mid ∉ t.filterMap LegacyLineRow.move := by
    have h1 : (s ++ l :: t).filterMap LegacyLineRow.move
        = s.filterMap LegacyLineRow.move
          ++ (mid :: t.filterMap LegacyLineRow.move) := by
      rw [List.filterMap_append]
      congr 1
      simp [List.filterMap_cons, hmv]
    rw [h1] at hnd
    exact (List.nodup_cons.mp hnd.of_append_right).1
  have hfinal : migrateRow t (originStep l (migrateRow s m0))
      = originStep l (migrateRow s m0) := by
    apply migrateRow_not_ref
    rw [hstepped]
    have hidrec : ({ migrateRow s m0 with
        origin := some (inventoryLineModelName ++ "," ++ toString l.id)
          : MoveRow }).id = mid := by
      show (migrateRow s m0).id = mid
      rw [migrateRow_id]
      exact hm0id
    rw [hidrec]
    exact hmidt
  rw [hsplit, hfinal, hstepped]

/-- Witness for C9 on a one-line, one-move table: the move's origin becomes
`'policoop.transport.line,5'` and the legacy column is gone. -/
theorem register_rewrites_origins_witness :
    ([exampleLegacyLine].filterMap LegacyLineRow.move).Nodup ∧
    exampleLegacyLine ∈ [exampleLegacyLine] ∧
    exampleLegacyLine.move = some 3 ∧
    exampleMigratedRow ∈
      (register_migration true [exampleLegacyLine] [exampleMoveRow]).1 ∧
    exampleMigratedRow.id = 3 ∧
    (exampleMigratedRow.origin =
        some (inventoryLineModelName ++ "," ++ toString exampleLegacyLine.id) ∧
      (register_migration true [exampleLegacyLine] [exampleMoveRow]).2
        = false) := by
  have hlist : (register_migration true [exampleLegacyLine] [exampleMoveRow]).1
      = [exampleMigratedRow] := rfl
  have hmem : exampleMigratedRow ∈
      (register_migration true [exampleLegacyLine] [exampleMoveRow]).1 := by
    rw [hlist]
    exact List.mem_singleton_self _
  exact ⟨by decide, List.mem_singleton_self _, rfl, hmem, rfl,
    register_rewrites_origins [exampleLegacyLine] [exampleMoveRow] (by decide)
      exampleLegacyLine (List.mem_singleton_self _) 3 rfl
      exampleMigratedRow hmem rfl⟩

end PolicoopEms
